import Mathlib

/-!
Verification development for rtsp-snapshot (src/rtsp_snapshot.py).

The script captures still images or fixed-duration video clips from RTSP
camera streams listed in a JSON config file. This file is a shallow
embedding of its core logic:

* `safe_filename` (source lines 22-25) is embedded directly over `String`.
* The external media library (cv2) is abstracted by `Env`: whether the
  stream opens, the result of the i-th read attempt, the wall-clock value
  observed at the i-th loop check, and whether an image write succeeds.
  Time is modelled as a `Nat`-valued clock sampled at each loop-condition
  evaluation, exactly where the source calls `time.time()`.
* `save_snapshot` (lines 28-59), `save_video` (lines 62-94),
  `record_rtsp_stream` (lines 97-117) and the per-device body of `main`
  (lines 138-176) are embedded as total functions; the unbounded `while`
  loops take an explicit fuel parameter (`Env.fuel`), and a `fuelOut`
  result marks fuel exhaustion (a model artifact no theorem relies on).
* `exit()` on snapshot open failure (line 40) and the exception raised by
  `cv2.imwrite(path, None)` when the frame-wait loop times out (line 54)
  terminate the Python process; they are modelled as the halting statuses
  `exitProcess` and `frameCrash`, which `runBatch` treats as aborting the
  remaining devices, exactly as an uncaught exception or `exit()` does.
-/

/-- Mirrors `SAVE_DIR = Path("snapshots_rtsp")` (line 12). -/
def SAVE_DIR : String := "snapshots_rtsp"

/-- Mirrors `DEFAULT_DURATION = 10` (line 13). -/
def DEFAULT_DURATION : Nat := 10

/-- Mirrors `DEFAULT_FILEFORMAT = "jpg"` (line 14). -/
def DEFAULT_FILEFORMAT : String := "jpg"

/-- Mirrors `SUPPORTED_FORMATS = ["jpg", "mp4"]` (line 15). -/
def SUPPORTED_FORMATS : List String := ["jpg", "mp4"]

/-- The character filter of `safe_filename` (line 24): kept iff alphabetic,
a digit, an underscore or a dot (Python's Unicode-aware `isalpha`/`isdigit`
are modelled by Lean's ASCII classifiers; they agree on ASCII input). -/
def keepChar (c : Char) : Bool := c.isAlpha || c.isDigit || c = '_' || c = '.'

/-- Mirrors `safe_filename` (lines 22-25): keep exactly the characters that
pass the filter, in order. -/
def safe_filename (filename : String) : String :=
  String.mk (filename.data.filter keepChar)

/-- A decoded frame, abstract (its pixel content plays no role). -/
abbrev Frame := Nat

/-- The environment one capture attempt runs in: the behavior of the cv2
stream and of the clock. `opened` is `cap.isOpened()`; `reads i` is the
result of the i-th `cap.read()` (`none` = failed read); `checkTime i` is the
`time.time()` value observed at the i-th loop-condition check; `t0` is the
clock value read before the loop starts; `writeOk` is whether `cv2.imwrite`
succeeds on a real frame; `timestamp` is `datetime.now().strftime(...)` for
this device; `fuel` bounds the loop unrolling of the model. -/
structure Env where
  opened : Bool
  reads : Nat → Option Frame
  t0 : Nat
  checkTime : Nat → Nat
  writeOk : Bool
  fuel : Nat
  timestamp : String

/-- Terminal status of one `save_snapshot` call. `exitProcess` models the
`exit()` on open failure (line 40); `frameCrash` models the exception that
`cv2.imwrite(str(output_path), None, ...)` raises when the wait loop ended
with `frame = None` (line 54); `fuelOut` is the model's fuel exhaustion. -/
inductive SnapStatus where
  | exitProcess
  | frameCrash
  | writeFailed
  | saved
  | fuelOut
deriving DecidableEq

/-- What one `save_snapshot` call did: its terminal status, whether
`cap.release()` (line 59) was reached, and whether an image file was
written. -/
structure SnapResult where
  status : SnapStatus
  released : Bool
  fileCreated : Bool
deriving DecidableEq

/-- The frame-wait loop of `save_snapshot` (lines 45-52): while the elapsed
time at the check is under 5 seconds, attempt a read; a successful read
breaks with the frame, and passing the deadline leaves `frame = None`
(returned as `some none`). `none` means the fuel ran out. -/
def waitFrame (t0 : Nat) (checkTime : Nat → Nat) (reads : Nat → Option Frame) :
    Nat → Nat → Option (Option Frame)
  | 0, _ => none
  | fuel + 1, i =>
    if checkTime i - t0 < 5 then
      match reads i with
      | some frm => some (some frm)
      | none => waitFrame t0 checkTime reads fuel (i + 1)
    else some none

/-- Mirrors `save_snapshot` (lines 28-59). Open failure prints and calls
`exit()` (lines 38-40). Otherwise the wait loop runs; `cv2.imwrite` is then
called on whatever `frame` holds (line 54): on `None` it raises before
`cap.release()` (line 59) is reached, on a real frame a failed write prints
and a successful write prints the dimensions, and both reach the release. -/
def save_snapshot (e : Env) : SnapResult :=
  if e.opened then
    match waitFrame e.t0 e.checkTime e.reads e.fuel 0 with
    | some (some _) =>
      if e.writeOk then
        { status := SnapStatus.saved, released := true, fileCreated := true }
      else
        { status := SnapStatus.writeFailed, released := true, fileCreated := false }
    | some none =>
      { status := SnapStatus.frameCrash, released := false, fileCreated := false }
    | none =>
      { status := SnapStatus.fuelOut, released := false, fileCreated := false }
  else
    { status := SnapStatus.exitProcess, released := false, fileCreated := false }

/-- Terminal status of one `save_video` call: open failure returns early
(lines 75-77), everything else ends in the final save message (line 94). -/
inductive VidStatus where
  | openFailed
  | saved
  | fuelOut
deriving DecidableEq

/-- What one `save_video` call did: status, the frames appended to the
writer in order, the index of the loop check at which the loop exited,
whether it exited on the elapsed-time condition (versus a failed read), and
whether `cap.release()` / `out.release()` (lines 92-93) were reached. -/
structure VidResult where
  status : VidStatus
  frames : List Frame
  exitIndex : Nat
  exitByTime : Bool
  capReleased : Bool
  writerReleased : Bool
deriving DecidableEq

/-- The recording loop of `save_video` (lines 86-90): while the elapsed
time at the check is under `duration_sec`, read a frame; a failed read
breaks (`exitByTime = false`), a successful read is appended and the loop
continues; reaching the deadline exits (`exitByTime = true`). The result
carries the appended frames and the exit check index; `none` means the
fuel ran out. -/
def recordLoop (t0 duration_sec : Nat) (checkTime : Nat → Nat)
    (reads : Nat → Option Frame) :
    Nat → Nat → List Frame → Option (List Frame × Nat × Bool)
  | 0, _, _ => none
  | fuel + 1, i, acc =>
    if checkTime i - t0 < duration_sec then
      match reads i with
      | none => some (acc.reverse, i, false)
      | some frm => recordLoop t0 duration_sec checkTime reads fuel (i + 1) (frm :: acc)
    else some (acc.reverse, i, true)

/-- Mirrors `save_video` (lines 62-94). Open failure prints and returns
(lines 75-77). Otherwise the writer is opened, the recording loop runs, and
on either exit of the loop both `cap.release()` and `out.release()` run
(lines 92-93) before the final save message (line 94). -/
def save_video (e : Env) (duration_sec : Nat) : VidResult :=
  if e.opened then
    match recordLoop e.t0 duration_sec e.checkTime e.reads e.fuel 0 [] with
    | some (fs, i, byTime) =>
      { status := VidStatus.saved, frames := fs, exitIndex := i,
        exitByTime := byTime, capReleased := true, writerReleased := true }
    | none =>
      { status := VidStatus.fuelOut, frames := [], exitIndex := 0,
        exitByTime := false, capReleased := false, writerReleased := false }
  else
    { status := VidStatus.openFailed, frames := [], exitIndex := 0,
      exitByTime := false, capReleased := false, writerReleased := false }

/-- What one dispatched capture attempt did. -/
inductive DevAction where
  | snap (r : SnapResult)
  | vid (r : VidResult)
deriving DecidableEq

/-- Mirrors `record_rtsp_stream` (lines 97-117): dispatch on the format
string; any format other than "jpg" and "mp4" raises `ValueError`, modelled
as the `Except.error` branch. -/
def record_rtsp_stream (e : Env) (_output_path : String) (fileformat : String)
    (duration_sec : Nat) : Except String DevAction :=
  if fileformat = "jpg" then
    Except.ok (DevAction.snap (save_snapshot e))
  else if fileformat = "mp4" then
    Except.ok (DevAction.vid (save_video e duration_sec))
  else
    Except.error ("Unsupported format: " ++ fileformat)

/-- One raw device record of the JSON config file: `device.get(key)` is
`none` when the key is missing. -/
structure Device where
  camera_name : Option String
  camera_url : Option String
  directory : Option String
  filename : Option String
  fileformat : Option String
  duration : Option Nat
deriving DecidableEq

/-- The format normalization of `main` (lines 155-159): a fileformat
outside `SUPPORTED_FORMATS` is replaced by `DEFAULT_FILEFORMAT`. -/
def normalizeFormat (fileformat : String) : String :=
  if fileformat ∈ SUPPORTED_FORMATS then fileformat else DEFAULT_FILEFORMAT

/-- Joining of `pathlib.Path` segments with `/`. -/
def pathJoin (p q : String) : String := p ++ "/" ++ q

/-- The output path `main` resolves for one device (lines 146-173):
`directory` is sanitized (line 146) and, when non-empty, appended to
`SAVE_DIR` (lines 161-165); `filename` defaults to `"video.mp4"`
(line 147); the final component is `f"{timestamp}_{filename}.{fileformat}"`
(line 173) with the normalized format. -/
def resolveOutputPath (device : Device) (timestamp : String) : String :=
  let directory := safe_filename (device.directory.getD "")
  let filename := device.filename.getD "video.mp4"
  let fileformat := normalizeFormat (device.fileformat.getD "mp4")
  let output_path := if directory ≠ "" then pathJoin SAVE_DIR directory else SAVE_DIR
  pathJoin output_path (timestamp ++ "_" ++ filename ++ "." ++ fileformat)

/-- What the body of the device loop of `main` (lines 143-176) did for one
device: skipped it for a missing name/url (lines 151-153), dispatched it
(`act` with the resolved path), or raised the `ValueError` of
`record_rtsp_stream` (modelled, unreachable from `main`). -/
inductive DevEvent where
  | skippedMissing
  | act (path : String) (a : DevAction)
  | dispatchError (msg : String)
deriving DecidableEq

/-- Mirrors one iteration of the device loop of `main` (lines 143-176):
extract the fields with their defaults (lines 144-149), skip on a missing
`camera_url` or `camera_name` (lines 151-153), normalize the format
(lines 155-159), resolve the output path (lines 161-173) and dispatch
(lines 170-176). -/
def processDevice (device : Device) (e : Env) : DevEvent :=
  if device.camera_url.getD "" = "" ∨ device.camera_name.getD "" = "" then
    DevEvent.skippedMissing
  else
    let fileformat := normalizeFormat (device.fileformat.getD "mp4")
    let duration := device.duration.getD DEFAULT_DURATION
    let path := resolveOutputPath device e.timestamp
    match record_rtsp_stream e path fileformat duration with
    | Except.ok a => DevEvent.act path a
    | Except.error msg => DevEvent.dispatchError msg

/-- Whether the event killed the Python process: `exit()` on snapshot open
failure, the exception of `cv2.imwrite` on a `None` frame, or an uncaught
`ValueError` from the dispatcher. Such an event ends the device loop. -/
def haltsProcess : DevEvent → Bool
  | DevEvent.act _ (DevAction.snap r) =>
    match r.status with
    | SnapStatus.exitProcess => true
    | SnapStatus.frameCrash => true
    | _ => false
  | DevEvent.dispatchError _ => true
  | _ => false

/-- The device loop of `main` (lines 143-176): process devices in order;
a halting event (process exit / uncaught exception) ends the loop with the
remaining devices unprocessed. Returns the events that happened and whether
the loop ran to completion. -/
def runBatch : List (Device × Env) → List DevEvent × Bool
  | [] => ([], true)
  | (device, e) :: rest =>
    let r := processDevice device e
    if haltsProcess r then ([r], false)
    else
      let tailResult := runBatch rest
      (r :: tailResult.1, tailResult.2)

/-- What one run of `main` (after config loading) did: the per-device
events, whether the "No devices found" message was printed (lines 138-140),
and whether `main` returned normally (exit status 0). -/
structure MainResult where
  events : List DevEvent
  noDevicesMessage : Bool
  completed : Bool
deriving DecidableEq

/-- Mirrors `main` of the source from line 138 on (the name `main` is
reserved by Lean for an entry point): an empty device list prints the
no-devices message and returns; otherwise the device loop runs. -/
def mainRun (devices : List (Device × Env)) : MainResult :=
  if devices.isEmpty then
    { events := [], noDevicesMessage := true, completed := true }
  else
    let r := runBatch devices
    { events := r.1, noDevicesMessage := false, completed := r.2 }

/-- How many events attempted to open a stream (every dispatched capture
constructs a `cv2.VideoCapture`). -/
def opensAttempted : List DevEvent → Nat
  | [] => 0
  | DevEvent.act _ _ :: rest => 1 + opensAttempted rest
  | _ :: rest => opensAttempted rest

/-- How many events created an output file (a snapshot write that
succeeded, or a video capture that got as far as opening its writer). -/
def filesCreated : List DevEvent → Nat
  | [] => 0
  | DevEvent.act _ (DevAction.snap r) :: rest =>
    (if r.fileCreated then 1 else 0) + filesCreated rest
  | DevEvent.act _ (DevAction.vid r) :: rest =>
    (if r.status = VidStatus.openFailed then 0 else 1) + filesCreated rest
  | _ :: rest => filesCreated rest

/-- Suffix test on strings, by character list. -/
def strEndsWith (s t : String) : Bool := List.isSuffixOf t.data s.data

/-- Split a path string into its `/`-separated segments. -/
def splitSegsAux (cur : List Char) : List Char → List (List Char)
  | [] => [cur.reverse]
  | c :: rest =>
    if c = '/' then cur.reverse :: splitSegsAux [] rest
    else splitSegsAux (c :: cur) rest

/-- The `/`-separated segments of a path string. -/
def splitPath (p : String) : List String :=
  (splitSegsAux [] p.data).map String.mk

/-- Resolve `.`, empty and `..` segments against a stack of segments, the
way a filesystem resolves a relative path (a `..` above the start is
dropped). -/
def normalizeSegs (acc : List String) : List String → List String
  | [] => acc.reverse
  | seg :: rest =>
    if seg = ".." then normalizeSegs acc.tail rest
    else if seg = "." ∨ seg = "" then normalizeSegs acc rest
    else normalizeSegs (seg :: acc) rest

/-- The filesystem location a path string designates, as a normalized
segment list. -/
def normalizePath (p : String) : List String := normalizeSegs [] (splitPath p)

/-! ### Concrete inputs used by the closed theorems -/

/-- A stream that opens but never yields a decodable frame; the clock
advances one second per loop check, so the 5-second window closes at the
sixth check. -/
def envNoFrame : Env :=
  { opened := true, reads := fun _ => none, t0 := 0, checkTime := fun i => i,
    writeOk := true, fuel := 10, timestamp := "t" }

/-- A stream that cannot be opened. -/
def envOpenFail : Env :=
  { opened := false, reads := fun _ => none, t0 := 0, checkTime := fun i => i,
    writeOk := true, fuel := 10, timestamp := "20260101_120000" }

/-- A healthy stream: opens, every read yields a frame, writes succeed. -/
def envLive : Env :=
  { opened := true, reads := fun _ => some 0, t0 := 0, checkTime := fun i => i,
    writeOk := true, fuel := 20, timestamp := "20260101_120001" }

/-- A stream whose reads all succeed, one frame per one-second clock tick. -/
def envAllFrames : Env :=
  { opened := true, reads := fun j => some j, t0 := 0, checkTime := fun i => i,
    writeOk := true, fuel := 10, timestamp := "t" }

/-- A stream that yields two frames and then fails its third read, well
before any deadline. -/
def envPartialClip : Env :=
  { opened := true, reads := fun j => if j < 2 then some j else none, t0 := 0,
    checkTime := fun i => i, writeOk := true, fuel := 10, timestamp := "t" }

/-- A valid jpg device record. -/
def devJpgCam : Device :=
  { camera_name := some "cam1", camera_url := some "rtsp://cam1", directory := none,
    filename := some "front", fileformat := some "jpg", duration := none }

/-- A valid mp4 device record with a 5-second duration. -/
def devVidCam : Device :=
  { camera_name := some "cam2", camera_url := some "rtsp://cam2", directory := none,
    filename := some "yard", fileformat := some "mp4", duration := some 5 }

/-- A second valid mp4 device record. -/
def devVidCam2 : Device :=
  { camera_name := some "cam3", camera_url := some "rtsp://cam3", directory := none,
    filename := some "gate", fileformat := some "mp4", duration := some 5 }

/-- A device record that omits `filename` and asks for mp4. -/
def devNoFilenameMp4 : Device :=
  { camera_name := some "cam4", camera_url := some "rtsp://cam4", directory := none,
    filename := none, fileformat := some "mp4", duration := none }

/-- A device record whose `filename` field carries a path traversal. -/
def devTraversal : Device :=
  { camera_name := some "cam5", camera_url := some "rtsp://cam5", directory := none,
    filename := some "x/../../evil", fileformat := some "mp4", duration := none }

/-! ### Helper lemmas -/

/-- If every read up to the failing one succeeds, the read at `k` fails and
the deadline has not passed at any check up to `k`, the recording loop
breaks at `k` with one appended frame per successful read. -/
theorem recordLoop_read_fail (t0 D : Nat) (ct : Nat → Nat) (rd : Nat → Option Frame)
    (k : Nat) (hk : rd k = none) :
    ∀ fuel i acc, i ≤ k → k - i < fuel →
      (∀ j, i ≤ j → j < k → (rd j).isSome = true) →
      (∀ j, i ≤ j → j ≤ k → ct j - t0 < D) →
      ∃ fs, recordLoop t0 D ct rd fuel i acc = some (fs, k, false) ∧
        fs.length = acc.length + (k - i) := by
  intro fuel
  induction fuel with
  | zero => intro i acc h1 h2 _ _; omega
  | succ fuel ih =>
    intro i acc hik hf hpre hlt
    by_cases hi : i = k
    · subst hi
      have hct : ct i - t0 < D := hlt i le_rfl le_rfl
      simp only [recordLoop]
      rw [if_pos hct, hk]
      exact ⟨acc.reverse, rfl, by simp⟩
    · have hlt2 : i < k := lt_of_le_of_ne hik hi
      have hct : ct i - t0 < D := hlt i le_rfl (le_of_lt hlt2)
      obtain ⟨f, hf2⟩ := Option.isSome_iff_exists.mp (hpre i le_rfl hlt2)
      simp only [recordLoop]
      rw [if_pos hct, hf2]
      obtain ⟨fs, heq, hlen⟩ := ih (i + 1) (f :: acc) hlt2 (by omega)
        (fun j hj1 hj2 => hpre j (by omega) hj2)
        (fun j hj1 hj2 => hlt j (by omega) hj2)
      refine ⟨fs, heq, ?_⟩
      simp only [List.length_cons] at hlen
      omega

/-- If every read succeeds, the deadline has not passed at any check before
`n` and has passed at check `n`, the recording loop exits at `n` on the
time condition with one appended frame per check. -/
theorem recordLoop_time_exit (t0 D : Nat) (ct : Nat → Nat) (rd : Nat → Option Frame)
    (hr : ∀ j, (rd j).isSome = true) (n : Nat) (hge : D ≤ ct n - t0) :
    ∀ fuel i acc, i ≤ n → n - i < fuel →
      (∀ j, i ≤ j → j < n → ct j - t0 < D) →
      ∃ fs, recordLoop t0 D ct rd fuel i acc = some (fs, n, true) ∧
        fs.length = acc.length + (n - i) := by
  intro fuel
  induction fuel with
  | zero => intro i acc h1 h2 _; omega
  | succ fuel ih =>
    intro i acc hin hf hlt
    by_cases hi : i = n
    · subst hi
      have hct : ¬ (ct i - t0 < D) := by omega
      simp only [recordLoop]
      rw [if_neg hct]
      exact ⟨acc.reverse, rfl, by simp⟩
    · have hlt2 : i < n := lt_of_le_of_ne hin hi
      have hct : ct i - t0 < D := hlt i le_rfl hlt2
      obtain ⟨f, hf2⟩ := Option.isSome_iff_exists.mp (hr i)
      simp only [recordLoop]
      rw [if_pos hct, hf2]
      obtain ⟨fs, heq, hlen⟩ := ih (i + 1) (f :: acc) hlt2 (by omega)
        (fun j hj1 hj2 => hlt j (by omega) hj2)
      refine ⟨fs, heq, ?_⟩
      simp only [List.length_cons] at hlen
      omega

/-- The resolved output path, flattened: base directory, optional sanitized
subdirectory, then `timestamp_filename.format` with `filename` defaulting
to `"video.mp4"`. -/
theorem resolveOutputPath_eq (device : Device) (timestamp : String) :
    resolveOutputPath device timestamp =
      (if safe_filename (device.directory.getD "") = "" then SAVE_DIR
        else SAVE_DIR ++ "/" ++ safe_filename (device.directory.getD "")) ++
      "/" ++ timestamp ++ "_" ++ device.filename.getD "video.mp4" ++ "." ++
      normalizeFormat (device.fileformat.getD "mp4") := by
  by_cases h : safe_filename (device.directory.getD "") = "" <;>
    simp [resolveOutputPath, pathJoin, h, String.append_assoc]

/-- The format `main` dispatches with is always one of the two supported
ones. -/
theorem normalizeFormat_cases (f : String) :
    normalizeFormat f = "jpg" ∨ normalizeFormat f = "mp4" := by
  unfold normalizeFormat
  by_cases h : f ∈ SUPPORTED_FORMATS
  · rw [if_pos h]
    simpa [SUPPORTED_FORMATS] using h
  · rw [if_neg h]
    left
    rfl

/-- The snapshot path releases its handle exactly on the two normal-return
paths (successful write, failed write); the open-failure exit, the
`None`-frame crash and fuel exhaustion never reach `cap.release()`. -/
theorem save_snapshot_release_paths (e : Env) :
    (save_snapshot e).released = true ↔
      ((save_snapshot e).status = SnapStatus.saved ∨
        (save_snapshot e).status = SnapStatus.writeFailed) := by
  unfold save_snapshot
  split
  · split
    · split <;> simp
    · simp
    · simp
  · simp

/-! ### Claim theorems -/

/-- C1: in the code as written, a jpg device whose stream fails to open
calls `exit()` and kills the batch: the two-device batch below produces one
`exitProcess` event and never reaches the second device, while the same
batch with an mp4 first device records `openFailed` for it and still
processes the second device to success. The claimed failure isolation
therefore holds for mp4 only, not for jpg. -/
theorem c1_jpg_open_failure_aborts_batch :
    runBatch [(devJpgCam, envOpenFail), (devVidCam, envLive)] =
      ([DevEvent.act "snapshots_rtsp/20260101_120000_front.jpg"
          (DevAction.snap
            { status := SnapStatus.exitProcess, released := false, fileCreated := false })],
        false) ∧
    runBatch [(devVidCam2, envOpenFail), (devVidCam, envLive)] =
      ([DevEvent.act "snapshots_rtsp/20260101_120000_gate.mp4"
          (DevAction.vid
            { status := VidStatus.openFailed, frames := [], exitIndex := 0,
              exitByTime := false, capReleased := false, writerReleased := false }),
        DevEvent.act "snapshots_rtsp/20260101_120001_yard.mp4"
          (DevAction.vid
            { status := VidStatus.saved, frames := [0, 0, 0, 0, 0], exitIndex := 5,
              exitByTime := true, capReleased := true, writerReleased := true })],
        true) := by
  constructor <;> decide

/-- C2: on a stream that opens but yields no decodable frame within the
5-second window, the code does not signal a frame-timeout outcome: it
reaches `cv2.imwrite` with `frame = None`, which raises (status
`frameCrash`); no output file is created, and the handle release is never
reached. -/
theorem c2_timeout_reaches_write_of_absent_frame :
    save_snapshot envNoFrame =
      { status := SnapStatus.frameCrash, released := false, fileCreated := false } := by
  decide

/-- C3: a capture attempt that successfully opened its stream handle but
got no frame within the window does not release the handle: the write of
the absent frame raises before `cap.release()` on line 59 is reached. -/
theorem c3_handle_leaked_on_timeout_path :
    envNoFrame.opened = true ∧
    (save_snapshot envNoFrame).status = SnapStatus.frameCrash ∧
    (save_snapshot envNoFrame).released = false := by
  decide

/-- C4: a video capture whose stream yields frames for every read before
`k` and fails the read at `k` while the deadline has not yet passed exits
the loop at `k` (not on the time condition), finalizes the file (both
releases run) and ends in the unconditional saved outcome, with the `k`
frames read so far written. -/
theorem c4_best_effort_clip (e : Env) (D k : Nat)
    (hopen : e.opened = true)
    (hpre : ∀ j, j < k → (e.reads j).isSome = true)
    (hk : e.reads k = none)
    (hlt : ∀ j, j ≤ k → e.checkTime j - e.t0 < D)
    (hfuel : k < e.fuel) :
    (save_video e D).status = VidStatus.saved ∧
    (save_video e D).exitByTime = false ∧
    (save_video e D).exitIndex = k ∧
    (save_video e D).frames.length = k ∧
    (save_video e D).capReleased = true ∧
    (save_video e D).writerReleased = true := by
  obtain ⟨fs, heq, hlen⟩ := recordLoop_read_fail e.t0 D e.checkTime e.reads k hk
    e.fuel 0 [] (Nat.zero_le k) (by omega)
    (fun j hj1 hj2 => hpre j hj2)
    (fun j hj1 hj2 => hlt j hj2)
  have hsv : save_video e D =
      { status := VidStatus.saved, frames := fs, exitIndex := k,
        exitByTime := false, capReleased := true, writerReleased := true } := by
    simp [save_video, hopen, heq]
  rw [hsv]
  refine ⟨rfl, rfl, rfl, ?_, rfl, rfl⟩
  simpa using hlen

/-- C4 witness: a stream yielding two frames and then dropping, against a
10-second duration, exits on the failed read at index 2 with both frames
written and both resources released. -/
theorem c4_best_effort_clip_witness :
    (save_video envPartialClip 10).status = VidStatus.saved ∧
    (save_video envPartialClip 10).exitByTime = false ∧
    (save_video envPartialClip 10).exitIndex = 2 ∧
    (save_video envPartialClip 10).frames.length = 2 ∧
    (save_video envPartialClip 10).capReleased = true ∧
    (save_video envPartialClip 10).writerReleased = true :=
  c4_best_effort_clip envPartialClip 10 2 rfl (by decide) rfl (by decide) (by decide)

/-- C5: a video capture with duration `D` in which no read fails exits its
loop exactly at the first check whose elapsed wall-clock time is at least
`D`: every earlier check saw elapsed time under `D`, the exit check saw at
least `D`, the exit is on the time condition, the call terminates in the
saved outcome, and the number of written frames equals the number of checks
before the deadline (the loop is never bounded by a frame count). -/
theorem c5_duration_bound (e : Env) (D n : Nat)
    (hopen : e.opened = true)
    (hr : ∀ j, (e.reads j).isSome = true)
    (hlt : ∀ j, j < n → e.checkTime j - e.t0 < D)
    (hge : D ≤ e.checkTime n - e.t0)
    (hfuel : n < e.fuel) :
    (save_video e D).status = VidStatus.saved ∧
    (save_video e D).exitByTime = true ∧
    (save_video e D).exitIndex = n ∧
    D ≤ e.checkTime (save_video e D).exitIndex - e.t0 ∧
    (∀ j, j < (save_video e D).exitIndex → e.checkTime j - e.t0 < D) ∧
    (save_video e D).frames.length = n := by
  obtain ⟨fs, heq, hlen⟩ := recordLoop_time_exit e.t0 D e.checkTime e.reads hr n hge
    e.fuel 0 [] (Nat.zero_le n) (by omega)
    (fun j hj1 hj2 => hlt j hj2)
  have hsv : save_video e D =
      { status := VidStatus.saved, frames := fs, exitIndex := n,
        exitByTime := true, capReleased := true, writerReleased := true } := by
    simp [save_video, hopen, heq]
  rw [hsv]
  refine ⟨rfl, rfl, rfl, hge, hlt, ?_⟩
  simpa using hlen

/-- C5 witness: a stream with a frame on every read and a one-second clock
tick, against a 3-second duration, exits at check 3 with 3 frames. -/
theorem c5_duration_bound_witness :
    (save_video envAllFrames 3).status = VidStatus.saved ∧
    (save_video envAllFrames 3).exitByTime = true ∧
    (save_video envAllFrames 3).exitIndex = 3 ∧
    (save_video envAllFrames 3).frames.length = 3 := by
  have h := c5_duration_bound envAllFrames 3 3 rfl (fun j => rfl)
    (by decide) (by decide) (by decide)
  exact ⟨h.1, h.2.1, h.2.2.1, h.2.2.2.2.2⟩

/-- C6: for every device record, the format `main` dispatches with is one
of "jpg" and "mp4" (anything else was coerced to the image default "jpg" on
lines 155-159), so the device loop never produces the `ValueError` event of
`record_rtsp_stream`. -/
theorem c6_format_normalization (device : Device) (e : Env) :
    (normalizeFormat (device.fileformat.getD "mp4") = "jpg" ∨
      normalizeFormat (device.fileformat.getD "mp4") = "mp4") ∧
    (match processDevice device e with
      | DevEvent.dispatchError _ => true
      | _ => false) = false := by
  refine ⟨normalizeFormat_cases _, ?_⟩
  unfold processDevice
  by_cases hskip : device.camera_url.getD "" = "" ∨ device.camera_name.getD "" = ""
  · rw [if_pos hskip]
  · rw [if_neg hskip]
    rcases normalizeFormat_cases (device.fileformat.getD "mp4") with h | h <;>
      simp [record_rtsp_stream, h]

/-- C7 counterexample: a record omitting `filename` with mp4 format
resolves, at a concrete dispatch timestamp, to a path ending in
"_video.mp4.mp4" (the default on line 147 is "video.mp4", and line 173
appends ".mp4" again), not to a path ending in "_video.mp4" as the claim
states. -/
theorem c7_counterexample :
    resolveOutputPath devNoFilenameMp4 "20260101_120000" =
      "snapshots_rtsp/20260101_120000_video.mp4.mp4" ∧
    strEndsWith (resolveOutputPath devNoFilenameMp4 "20260101_120000") "_video.mp4"
      = false := by
  constructor <;> decide

/-- C7 as amended: for every device record the resolved output path is
`base[/<sanitized_directory>]/<timestamp>_<filename>.<format>` with one
timestamp value per device, where `filename` defaults to "video.mp4" when
absent, so a record omitting `filename` with mp4 format yields a path
ending in "_video.mp4.mp4". -/
theorem c7_output_path_convention :
    (∀ (device : Device) (timestamp : String),
      resolveOutputPath device timestamp =
        (if safe_filename (device.directory.getD "") = "" then SAVE_DIR
          else SAVE_DIR ++ "/" ++ safe_filename (device.directory.getD "")) ++
        "/" ++ timestamp ++ "_" ++ device.filename.getD "video.mp4" ++ "." ++
        normalizeFormat (device.fileformat.getD "mp4")) ∧
    strEndsWith (resolveOutputPath devNoFilenameMp4 "20260101_120000") "_video.mp4.mp4"
      = true :=
  ⟨resolveOutputPath_eq, by decide⟩

/-- C8: on the empty device list the run prints the no-devices message,
performs no capture work (no event, no stream open, no file) and returns
normally. -/
theorem c8_empty_batch_noop :
    mainRun [] =
      { events := [], noDevicesMessage := true, completed := true } ∧
    opensAttempted (mainRun []).events = 0 ∧
    filesCreated (mainRun []).events = 0 := by
  decide

/-- C9: every character of `safe_filename`'s output passes the filter
(alphanumeric, underscore or dot), the output is a sub-sequence of the
input holding exactly the input's occurrences of those characters (so path
separators are removed and an all-invalid input yields the empty string),
`safe_filename` is idempotent, and the filter rejects both separators. -/
theorem c9_sanitizer_invariant (s : String) :
    (∀ c, c ∈ (safe_filename s).data → keepChar c = true) ∧
    List.Sublist (safe_filename s).data s.data ∧
    (∀ c, List.count c (safe_filename s).data =
      if keepChar c = true then List.count c s.data else 0) ∧
    safe_filename (safe_filename s) = safe_filename s ∧
    keepChar '/' = false ∧ keepChar '\\' = false := by
  have hdata : (safe_filename s).data = s.data.filter keepChar := rfl
  refine ⟨?_, ?_, ?_, ?_, rfl, rfl⟩
  · intro c hc
    rw [hdata] at hc
    exact (List.mem_filter.mp hc).2
  · rw [hdata]
    exact List.filter_sublist s.data
  · intro c
    rw [hdata]
    by_cases h : keepChar c = true
    · rw [if_pos h]
      exact List.count_filter h
    · rw [if_neg h]
      refine List.count_eq_zero.mpr ?_
      intro hc
      exact h (List.mem_filter.mp hc).2
  · show String.mk ((s.data.filter keepChar).filter keepChar) =
      String.mk (s.data.filter keepChar)
    congr 1
    exact List.filter_eq_self.mpr (fun a ha => (List.mem_filter.mp ha).2)

/-- C10: only the directory field goes through `safe_filename`; the
filename field (defaulted to "video.mp4") is embedded verbatim between the
timestamp and the extension, so the filename "x/../../evil" of the concrete
record below makes the resolved path designate "evil.mp4" at the top level,
outside the device's designated output directory `SAVE_DIR`. -/
theorem c10_unsanitized_filename :
    (∀ (device : Device) (timestamp : String),
      resolveOutputPath device timestamp =
        pathJoin
          (if safe_filename (device.directory.getD "") = "" then SAVE_DIR
            else pathJoin SAVE_DIR (safe_filename (device.directory.getD "")))
          (timestamp ++ "_" ++ device.filename.getD "video.mp4" ++ "." ++
            normalizeFormat (device.fileformat.getD "mp4"))) ∧
    normalizePath (resolveOutputPath devTraversal "20260101_120000") = ["evil.mp4"] ∧
    ((normalizePath (resolveOutputPath devTraversal "20260101_120000")).headD ""
        == SAVE_DIR) = false := by
  refine ⟨?_, by decide, by decide⟩
  intro device timestamp
  by_cases h : safe_filename (device.directory.getD "") = "" <;>
    simp [resolveOutputPath, pathJoin, h]
